import Mathlib

/-!
Shallow embedding of the swap-quote engine of `src/frontend/src/stores/swapStore.ts`
and the `handleSwap` handler of the store-backed `SwapWidget` component.

JavaScript numbers are modelled by `JsNum`: either a rational value or `NaN`
(the store multiplies, compares and formats `parseFloat` results, and `NaN`
propagation through those operations is observable).  The asynchronous
`calculateQuote` action is split at its single `await` point into a synchronous
prefix (`calculateQuoteSync`, run when the action is invoked) and a resumption
(`calculateQuoteResume`, run when the simulated rate request completes); the
arguments captured by the closure across the `await` form a `PendingRequest`.
`Math.random()` and `Date.now()` are external inputs and appear as parameters
of the resumption.
-/

/-- A JavaScript number: a finite rational value or NaN.  (The store never
produces infinities from the inputs the claims range over.) -/
inductive JsNum where
  | num (q : ℚ)
  | nan
  deriving DecidableEq

/-- JavaScript multiplication: NaN is absorbing. -/
def jsMul : JsNum → JsNum → JsNum
  | JsNum.num a, JsNum.num b => JsNum.num (a * b)
  | _, _ => JsNum.nan

/-- JavaScript `<=`: any comparison with NaN is false. -/
def jsLe : JsNum → JsNum → Bool
  | JsNum.num a, JsNum.num b => decide (a ≤ b)
  | _, _ => false

/-- Decimal digit character for `n % 10`. -/
def digitChar (n : ℕ) : Char := Char.ofNat (48 + n % 10)

/-- Decimal digits of `n`, most significant first; fuel-based recursion. -/
def natDigitsAux : ℕ → ℕ → List Char
  | 0, _ => []
  | fuel + 1, n => if n < 10 then [digitChar n] else natDigitsAux fuel (n / 10) ++ [digitChar n]

/-- Decimal rendering of a natural number. -/
def natToDigits (n : ℕ) : List Char := natDigitsAux (n + 1) n

/-- Exactly six decimal digits of `m` (which is `< 10^6`), most significant first. -/
def fracDigits6 (m : ℕ) : List Char :=
  [digitChar (m / 100000), digitChar (m / 10000), digitChar (m / 1000),
   digitChar (m / 100), digitChar (m / 10), digitChar m]

/-- `q.toFixed(6)` for a finite value: round to six decimal places and render
with exactly six digits after the point.  `scaled` is `⌊q * 10^6 + 1/2⌋`
computed on the numerator and denominator directly (`formatFixed6_scaled`
proves the two agree), so that the definition evaluates by kernel reduction. -/
def formatFixed6 (q : ℚ) : String :=
  let scaled : ℤ := Int.fdiv (2000000 * q.num + q.den) (2 * q.den)
  let sign : List Char := if scaled < 0 then ['-'] else []
  let m : ℕ := scaled.natAbs
  String.mk (sign ++ natToDigits (m / 1000000) ++ '.' :: fracDigits6 (m % 1000000))

/-- JavaScript `x.toFixed(6)`: `"NaN"` on NaN, fixed six-decimal rendering otherwise. -/
def toFixed6 : JsNum → String
  | JsNum.nan => "NaN"
  | JsNum.num q => formatFixed6 q

/-- Value of a list of decimal digit characters. -/
def digitsToNat (ds : List Char) : ℕ :=
  ds.foldl (fun a c => a * 10 + (c.toNat - 48)) 0

/-- JavaScript `parseFloat`: skip leading whitespace, parse an optional sign,
integer digits, an optional fraction and an optional exponent from the longest
numeric prefix; NaN when no digit is found.  The value of a parsed literal
with digits `d`, fraction length `f` and exponent `e` is
`sgn * d * 10 ^ (e - f)`, built here with `Rat.divInt` so that it evaluates
by kernel reduction. -/
def parseFloat (s : String) : JsNum :=
  let l0 := s.data.dropWhile Char.isWhitespace
  let sgn : ℤ := match l0 with
    | '-' :: _ => -1
    | _ => 1
  let l1 := match l0 with
    | '-' :: rest => rest
    | '+' :: rest => rest
    | _ => l0
  let intDs := l1.takeWhile Char.isDigit
  let l2 := l1.dropWhile Char.isDigit
  let fracDs := match l2 with
    | '.' :: rest => rest.takeWhile Char.isDigit
    | _ => []
  let l3 := match l2 with
    | '.' :: rest => rest.dropWhile Char.isDigit
    | _ => l2
  if intDs.isEmpty && fracDs.isEmpty then JsNum.nan
  else
    let expVal : ℤ := match l3 with
      | c :: rest =>
        if c = 'e' ∨ c = 'E' then
          let esgn : ℤ := match rest with
            | '-' :: _ => -1
            | _ => 1
          let rest2 := match rest with
            | '-' :: r => r
            | '+' :: r => r
            | _ => rest
          let eDs := rest2.takeWhile Char.isDigit
          if eDs.isEmpty then 0 else esgn * (digitsToNat eDs : ℤ)
        else 0
      | [] => 0
    let k : ℤ := expVal - fracDs.length
    JsNum.num (Rat.divInt (sgn * (digitsToNat (intDs ++ fracDs) : ℤ) * 10 ^ k.toNat)
                          ((10 : ℤ) ^ (-k).toNat))

/-- Asset reference data (`Asset` interface in `swapStore.ts`). -/
structure Asset where
  id : ℕ
  symbol : String
  name : String
  icon : String
  decimals : ℕ
  balance : Option ℚ := none
  deriving DecidableEq

/-- `assets.eth` from the store's static registry. -/
def assets_eth : Asset :=
  { id := 1, symbol := "ETH", name := "Ethereum",
    icon := "https://garden.imgix.net/chain_images/ethereum.svg", decimals := 18 }

/-- `assets.btc` from the store's static registry. -/
def assets_btc : Asset :=
  { id := 2, symbol := "BTC", name := "Bitcoin",
    icon := "https://garden.imgix.net/token-images/bitcoin.svg", decimals := 8 }

/-- A quote snapshot (`Quote` interface in `swapStore.ts`). -/
structure Quote where
  inputAmount : JsNum
  outputAmount : JsNum
  exchangeRate : ℚ
  priceImpact : ℚ
  minimumReceived : JsNum
  slippage : ℚ
  timestamp : ℕ
  deriving DecidableEq

/-- The `exchangeDirection` enum: `'normal' | 'reversed'`. -/
inductive ExchangeDirection where
  | normal
  | reversed
  deriving DecidableEq

/-- The store state (`SwapState` interface in `swapStore.ts`). -/
structure SwapState where
  fromAsset : Asset
  toAsset : Asset
  inputAmount : String
  outputAmount : String
  quote : Option Quote
  isQuoteLoading : Bool
  isSwapPending : Bool
  showQuoteDetails : Bool
  isExchanging : Bool
  exchangeDirection : ExchangeDirection
  error : Option String
  warning : Option String
  slippageTolerance : ℚ
  deadline : ℚ
  currentPrice : ℚ
  priceChange24h : ℚ
  deriving DecidableEq

/-- `MOCK_PRICES.BTC`. -/
def MOCK_PRICES_BTC : ℚ := 45000

/-- `MOCK_PRICES.ETH`. -/
def MOCK_PRICES_ETH : ℚ := 3000

/-- `MOCK_EXCHANGE_RATES`, keyed by the template string `FROM-TO`:
`'BTC-ETH': 0.0667`, `'ETH-BTC': 15.0`. -/
def MOCK_EXCHANGE_RATES (key : String) : Option ℚ :=
  if key = "BTC-ETH" then some (mkRat 667 10000)
  else if key = "ETH-BTC" then some 15
  else none

/-- `initialState` of the store. -/
def initialState : SwapState :=
  { fromAsset := assets_btc
    toAsset := assets_eth
    inputAmount := ""
    outputAmount := ""
    quote := none
    isQuoteLoading := false
    isSwapPending := false
    showQuoteDetails := false
    isExchanging := false
    exchangeDirection := ExchangeDirection.normal
    error := none
    warning := none
    slippageTolerance := mkRat 1 2
    deadline := 20
    currentPrice := MOCK_PRICES_BTC
    priceChange24h := mkRat 5 2 }

/-- The arguments `(amount, fromAsset, toAsset)` captured by `calculateQuote`'s
closure across its `await`: one outstanding rate request. -/
structure PendingRequest where
  amount : String
  fromAsset : Asset
  toAsset : Asset
  deriving DecidableEq

/-- Synchronous prefix of `calculateQuote` (everything before the `await`):
the empty/non-positive guard clears `quote`, `outputAmount` and `error` and
issues no request; otherwise the loading flag is set, `error` is cleared and a
rate request is issued. -/
def calculateQuoteSync (amount : String) (fromA toA : Asset) (s : SwapState) :
    SwapState × Option PendingRequest :=
  if amount = "" ∨ jsLe (parseFloat amount) (JsNum.num 0) = true then
    ({ s with quote := none, outputAmount := "", error := none }, none)
  else
    ({ s with isQuoteLoading := true, error := none }, some ⟨amount, fromA, toA⟩)

/-- Resumption of `calculateQuote` after the simulated delay resolves: parse
the captured amount, look up the rate for the captured pair, and either store
a fresh quote (reading `slippageTolerance` from the state at resumption time,
as `get()` does) or, when the rate is missing, take the catch branch. -/
def calculateQuoteResume (req : PendingRequest) (priceImpact : ℚ) (now : ℕ)
    (s : SwapState) : SwapState :=
  let inputAmount := parseFloat req.amount
  match MOCK_EXCHANGE_RATES (req.fromAsset.symbol ++ "-" ++ req.toAsset.symbol) with
  | none =>
      { s with isQuoteLoading := false, error := some "Exchange rate not available",
               quote := none, outputAmount := "" }
  | some exchangeRate =>
      let outputAmount := jsMul inputAmount (JsNum.num exchangeRate)
      let slippage := s.slippageTolerance
      let minimumReceived := jsMul outputAmount (JsNum.num (1 - slippage / 100))
      let q : Quote :=
        { inputAmount := inputAmount
          outputAmount := outputAmount
          exchangeRate := exchangeRate
          priceImpact := priceImpact
          minimumReceived := minimumReceived
          slippage := slippage
          timestamp := now }
      { s with quote := some q, outputAmount := toFixed6 outputAmount,
               isQuoteLoading := false, error := none }

/-- `setInputAmount`: store the raw text, and when it is non-empty (truthy)
run `calculateQuote` with the current pair. -/
def setInputAmount (amount : String) (s : SwapState) :
    SwapState × Option PendingRequest :=
  let s1 := { s with inputAmount := amount }
  if amount = "" then (s1, none)
  else calculateQuoteSync amount s1.fromAsset s1.toAsset s1

/-- `setOutputAmount`: store the raw text; no recomputation. -/
def setOutputAmount (amount : String) (s : SwapState) : SwapState :=
  { s with outputAmount := amount }

/-- `setFromAsset`: replace `fromAsset`, and when `inputAmount` is non-empty
run `calculateQuote` against the new pair. -/
def setFromAsset (asset : Asset) (s : SwapState) :
    SwapState × Option PendingRequest :=
  let s1 := { s with fromAsset := asset }
  if s1.inputAmount = "" then (s1, none)
  else calculateQuoteSync s1.inputAmount asset s1.toAsset s1

/-- `setToAsset`: replace `toAsset`, and when `inputAmount` is non-empty run
`calculateQuote` against the new pair. -/
def setToAsset (asset : Asset) (s : SwapState) :
    SwapState × Option PendingRequest :=
  let s1 := { s with toAsset := asset }
  if s1.inputAmount = "" then (s1, none)
  else calculateQuoteSync s1.inputAmount s1.fromAsset asset s1

/-- `swapAssets` (synchronous part; the 300 ms timer that clears
`isExchanging` is a separate external event and carries no correctness
weight): exchange the assets and the amount fields, set the animation flag,
flip the direction. -/
def swapAssets (s : SwapState) : SwapState :=
  { s with fromAsset := s.toAsset, toAsset := s.fromAsset,
           inputAmount := s.outputAmount, outputAmount := s.inputAmount,
           isExchanging := true,
           exchangeDirection :=
             match s.exchangeDirection with
             | ExchangeDirection.normal => ExchangeDirection.reversed
             | ExchangeDirection.reversed => ExchangeDirection.normal }

/-- `setError`. -/
def setError (e : Option String) (s : SwapState) : SwapState := { s with error := e }

/-- `setIsSwapPending`. -/
def setIsSwapPending (b : Bool) (s : SwapState) : SwapState := { s with isSwapPending := b }

/-- `setSlippageTolerance`: stores the new tolerance and nothing else. -/
def setSlippageTolerance (slippage : ℚ) (s : SwapState) : SwapState :=
  { s with slippageTolerance := slippage }

/-- `setDeadline`. -/
def setDeadline (d : ℚ) (s : SwapState) : SwapState := { s with deadline := d }

/-- `resetSwap`: back to the full default state. -/
def resetSwap (_ : SwapState) : SwapState := initialState

/-- `resetForm`: clear the amounts, the quote and both message fields. -/
def resetForm (s : SwapState) : SwapState :=
  { s with inputAmount := "", outputAmount := "", quote := none,
           error := none, warning := none }

/-- Synchronous prefix of the widget's `handleSwap` (up to its `await`): the
guard `!quote || !inputAmount || !outputAmount` sets the error message and
returns without issuing a settlement request; otherwise the pending flag is
set, the error cleared, and the settlement request issued (the Bool records
whether it was issued). -/
def handleSwapSync (s : SwapState) : SwapState × Bool :=
  if s.quote = none ∨ s.inputAmount = "" ∨ s.outputAmount = "" then
    (setError (some "Invalid swap parameters") s, false)
  else
    (setError none (setIsSwapPending true s), true)

set_option maxRecDepth 10000

/-! Helper lemmas shared by the claim theorems. -/

/-- The scaled integer computed by `formatFixed6` is exactly
`⌊q * 10^6 + 1/2⌋`: the rendering rounds half up to six decimal places. -/
theorem formatFixed6_scaled (q : ℚ) :
    Int.fdiv (2000000 * q.num + q.den) (2 * q.den) = ⌊q * 1000000 + 1 / 2⌋ := by
  have hd : ((q.den : ℕ) : ℚ) ≠ 0 := Nat.cast_ne_zero.mpr q.den_nz
  have hnum2 : (q.num : ℚ) = q * (q.den : ℚ) :=
    (div_eq_iff hd).mp (Rat.num_div_den q)
  have key : q * 1000000 + 1 / 2 =
      (((2000000 * q.num + (q.den : ℤ)) : ℤ) : ℚ) / (((2 * q.den : ℕ) : ℕ) : ℚ) := by
    rw [eq_div_iff (by push_cast; positivity)]
    push_cast
    rw [hnum2]
    ring
  rw [key, Rat.floor_intCast_div_natCast,
      Int.fdiv_eq_ediv _ (by positivity)]
  push_cast
  ring_nf

/-- The guard of `calculateQuote` fails (the request path is taken) when the
amount parses to a positive value. -/
theorem quoteGuard_false_of_pos (a : String) (q : ℚ)
    (hq : parseFloat a = JsNum.num q) (hpos : 0 < q) :
    ¬(a = "" ∨ jsLe (parseFloat a) (JsNum.num 0) = true) := by
  have hempty : parseFloat "" = JsNum.nan := by decide
  rintro (h | h)
  · rw [h, hempty] at hq
    exact JsNum.noConfusion hq
  · rw [hq] at h
    simp only [jsLe, decide_eq_true_eq] at h
    exact absurd hpos (not_lt.mpr h)

/-- The guard of `calculateQuote` fails when the text is non-empty and parses
to NaN (any comparison with NaN is false). -/
theorem quoteGuard_false_of_nan (a : String) (hne : a ≠ "")
    (hnan : parseFloat a = JsNum.nan) :
    ¬(a = "" ∨ jsLe (parseFloat a) (JsNum.num 0) = true) := by
  rintro (h | h)
  · exact hne h
  · rw [hnan] at h
    simp [jsLe] at h

/-- When the guard fails, the synchronous prefix of `calculateQuote` sets the
loading flag, clears the error and issues the request. -/
theorem calculateQuoteSync_request (a : String) (fa ta : Asset) (s : SwapState)
    (h : ¬(a = "" ∨ jsLe (parseFloat a) (JsNum.num 0) = true)) :
    calculateQuoteSync a fa ta s =
      ({ s with isQuoteLoading := true, error := none }, some ⟨a, fa, ta⟩) := by
  unfold calculateQuoteSync
  rw [if_neg h]

/-- When the rate lookup succeeds, the resumption of `calculateQuote` stores
the freshly built quote, formats the display amount and clears the flags. -/
theorem resume_rate_found (a : String) (fa ta : Asset) (pi : ℚ) (t : ℕ)
    (s : SwapState) (rate : ℚ)
    (hrate : MOCK_EXCHANGE_RATES (fa.symbol ++ "-" ++ ta.symbol) = some rate) :
    calculateQuoteResume ⟨a, fa, ta⟩ pi t s =
      { s with
        quote := some { inputAmount := parseFloat a,
                        outputAmount := jsMul (parseFloat a) (JsNum.num rate),
                        exchangeRate := rate, priceImpact := pi,
                        minimumReceived := jsMul (jsMul (parseFloat a) (JsNum.num rate))
                                                 (JsNum.num (1 - s.slippageTolerance / 100)),
                        slippage := s.slippageTolerance, timestamp := t },
        outputAmount := toFixed6 (jsMul (parseFloat a) (JsNum.num rate)),
        isQuoteLoading := false, error := none } := by
  unfold calculateQuoteResume
  simp only []
  rw [hrate]

/-- When the rate lookup fails, the resumption of `calculateQuote` takes the
catch branch: loading off, descriptive error, quote and display cleared. -/
theorem resume_rate_missing (a : String) (fa ta : Asset) (pi : ℚ) (t : ℕ)
    (s : SwapState)
    (hrate : MOCK_EXCHANGE_RATES (fa.symbol ++ "-" ++ ta.symbol) = none) :
    calculateQuoteResume ⟨a, fa, ta⟩ pi t s =
      { s with isQuoteLoading := false, error := some "Exchange rate not available",
               quote := none, outputAmount := "" } := by
  unfold calculateQuoteResume
  simp only []
  rw [hrate]

/-- A request issued through `setInputAmount` always carries the text just
stored and the current asset pair. -/
theorem setInputAmount_request_amount (a : String) (s : SwapState)
    (r : PendingRequest) (h : (setInputAmount a s).2 = some r) :
    r = ⟨a, s.fromAsset, s.toAsset⟩ := by
  unfold setInputAmount at h
  by_cases he : a = ""
  · rw [if_pos he] at h
    exact Option.noConfusion h
  · rw [if_neg he] at h
    unfold calculateQuoteSync at h
    by_cases hg : a = "" ∨ jsLe (parseFloat a) (JsNum.num 0) = true
    · rw [if_pos hg] at h
      exact Option.noConfusion h
    · rw [if_neg hg] at h
      simpa using h.symm

/-! Claim theorems. -/

/-- Claim C7: applying `swapAssets` twice restores `fromAsset`, `toAsset`,
`inputAmount` and `outputAmount` (ignoring the transient `isExchanging`
animation flag), and `exchangeDirection` toggles between exactly the two
values `normal` and `reversed`, so two applications restore it too. -/
theorem claim_C7 (s : SwapState) :
    (swapAssets (swapAssets s)).fromAsset = s.fromAsset ∧
    (swapAssets (swapAssets s)).toAsset = s.toAsset ∧
    (swapAssets (swapAssets s)).inputAmount = s.inputAmount ∧
    (swapAssets (swapAssets s)).outputAmount = s.outputAmount ∧
    (swapAssets s).exchangeDirection ≠ s.exchangeDirection ∧
    (swapAssets (swapAssets s)).exchangeDirection = s.exchangeDirection ∧
    (∀ d : ExchangeDirection,
      d = ExchangeDirection.normal ∨ d = ExchangeDirection.reversed) := by
  refine ⟨rfl, rfl, rfl, rfl, ?_, ?_, ?_⟩
  · cases h : s.exchangeDirection <;> simp [swapAssets, h]
  · cases h : s.exchangeDirection <;> simp [swapAssets, h]
  · intro d
    cases d
    · exact Or.inl rfl
    · exact Or.inr rfl

/-- Claim C8: `resetForm` is idempotent, clears exactly `inputAmount`,
`outputAmount`, `quote`, `error` and `warning`, and leaves every other field
(including `fromAsset`, `toAsset`, `slippageTolerance`, `deadline`)
unchanged. -/
theorem claim_C8 (s : SwapState) :
    resetForm (resetForm s) = resetForm s ∧
    (resetForm s).inputAmount = "" ∧
    (resetForm s).outputAmount = "" ∧
    (resetForm s).quote = none ∧
    (resetForm s).error = none ∧
    (resetForm s).warning = none ∧
    (resetForm s).fromAsset = s.fromAsset ∧
    (resetForm s).toAsset = s.toAsset ∧
    (resetForm s).slippageTolerance = s.slippageTolerance ∧
    (resetForm s).deadline = s.deadline ∧
    (resetForm s).isQuoteLoading = s.isQuoteLoading ∧
    (resetForm s).isSwapPending = s.isSwapPending ∧
    (resetForm s).showQuoteDetails = s.showQuoteDetails ∧
    (resetForm s).isExchanging = s.isExchanging ∧
    (resetForm s).exchangeDirection = s.exchangeDirection ∧
    (resetForm s).currentPrice = s.currentPrice ∧
    (resetForm s).priceChange24h = s.priceChange24h :=
  ⟨rfl, rfl, rfl, rfl, rfl, rfl, rfl, rfl, rfl, rfl, rfl, rfl, rfl, rfl, rfl, rfl, rfl⟩

/-- Claim C6: with no quote, or an empty `inputAmount`, or an empty
`outputAmount`, `handleSwap` sets `error` to `'Invalid swap parameters'`,
issues no settlement request, and leaves `inputAmount` and `outputAmount`
unchanged. -/
theorem claim_C6 (s : SwapState)
    (h : s.quote = none ∨ s.inputAmount = "" ∨ s.outputAmount = "") :
    handleSwapSync s = ({ s with error := some "Invalid swap parameters" }, false) ∧
    (handleSwapSync s).1.inputAmount = s.inputAmount ∧
    (handleSwapSync s).1.outputAmount = s.outputAmount := by
  have h1 : handleSwapSync s = ({ s with error := some "Invalid swap parameters" }, false) := by
    unfold handleSwapSync setError
    rw [if_pos h]
  exact ⟨h1, by rw [h1], by rw [h1]⟩

/-- Witness for C6 at the initial state (which has no quote). -/
theorem claim_C6_witness :
    initialState.quote = none ∧
    (handleSwapSync initialState =
        ({ initialState with error := some "Invalid swap parameters" }, false) ∧
      (handleSwapSync initialState).1.inputAmount = initialState.inputAmount ∧
      (handleSwapSync initialState).1.outputAmount = initialState.outputAmount) :=
  ⟨by decide, claim_C6 initialState (Or.inl (by decide))⟩

/-- Claim C2 (amended): `swapAssets` and `setSlippageTolerance` leave the
`quote` field unchanged — the store retains a stale quote across those
actions instead of clearing it; only the recomputation path, `resetForm` and
`resetSwap` replace or clear it. -/
theorem claim_C2 (s : SwapState) (x : ℚ) :
    (setSlippageTolerance x s).quote = s.quote ∧
    (swapAssets s).quote = s.quote ∧
    (setSlippageTolerance x s).slippageTolerance = x :=
  ⟨rfl, rfl, rfl⟩

/-- Counterexample to C2 as stated: from the initial state, set input `"1"`
and let the quote request complete (slippage tolerance ½); then
`setSlippageTolerance 1` changes the slippage that produced the quote but the
quote stays present (with its stale slippage ½), and `swapAssets` — which
changes the pair and the amounts — also keeps it. -/
theorem claim_C2_counterexample :
    ((setSlippageTolerance 1
        (calculateQuoteResume ⟨"1", assets_btc, assets_eth⟩ 0 0
          (setInputAmount "1" initialState).1)).quote.map Quote.slippage =
      some (mkRat 1 2)) ∧
    (setSlippageTolerance 1
        (calculateQuoteResume ⟨"1", assets_btc, assets_eth⟩ 0 0
          (setInputAmount "1" initialState).1)).slippageTolerance = 1 ∧
    mkRat 1 2 ≠ (1 : ℚ) ∧
    ((swapAssets
        (calculateQuoteResume ⟨"1", assets_btc, assets_eth⟩ 0 0
          (setInputAmount "1" initialState).1)).quote.map Quote.slippage =
      some (mkRat 1 2)) := by
  refine ⟨?_, by decide, by decide, ?_⟩ <;> decide

/-- Claim C3 (amended): for non-empty text that parses to a value `≤ 0`,
`setInputAmount` synchronously clears `quote`, `outputAmount` and `error` and
issues no request; for the empty text, `setInputAmount` stores it but — the
truthiness guard short-circuits before `calculateQuote` — triggers no
recomputation at all, so `quote`, `outputAmount` and `error` keep their
previous values. -/
theorem claim_C3 (s : SwapState) (text : String) :
    (text ≠ "" → jsLe (parseFloat text) (JsNum.num 0) = true →
      setInputAmount text s =
        ({ s with inputAmount := text, quote := none, outputAmount := "",
                  error := none }, none)) ∧
    setInputAmount "" s = ({ s with inputAmount := "" }, none) := by
  constructor
  · intro hne hle
    unfold setInputAmount calculateQuoteSync
    rw [if_neg hne, if_pos (Or.inr hle)]
  · unfold setInputAmount
    rw [if_pos rfl]

/-- Witness for C3: the text `"0"` parses to `0 ≤ 0` and clears the fields;
the empty text leaves the initial state with only `inputAmount` stored. -/
theorem claim_C3_witness :
    ("0" ≠ "" ∧ jsLe (parseFloat "0") (JsNum.num 0) = true) ∧
    setInputAmount "0" initialState =
      ({ initialState with inputAmount := "0", quote := none, outputAmount := "",
                           error := none }, none) ∧
    setInputAmount "" initialState = ({ initialState with inputAmount := "" }, none) :=
  ⟨⟨by decide, by decide⟩,
   (claim_C3 initialState "0").1 (by decide) (by decide),
   (claim_C3 initialState "").2⟩

/-- A state holding a completed quote for input `"1"` on the default
BTC→ETH pair (output display `0.066700`, minimum received `0.0663665`). -/
def staleQuoteState : SwapState :=
  { initialState with
      inputAmount := "1"
      outputAmount := "0.066700"
      quote := some { inputAmount := JsNum.num 1,
                      outputAmount := JsNum.num (mkRat 667 10000),
                      exchangeRate := mkRat 667 10000,
                      priceImpact := 1,
                      minimumReceived := JsNum.num (mkRat 663665 10000000),
                      slippage := mkRat 1 2,
                      timestamp := 17 } }

/-- Counterexample to C3 as stated: with a quote present and a non-empty
display amount, `setInputAmount ""` leaves `quote` and `outputAmount`
untouched (no recomputation runs for the empty text), where the claim
requires them cleared. -/
theorem claim_C3_counterexample :
    (setInputAmount "" staleQuoteState).1.quote = staleQuoteState.quote ∧
    (setInputAmount "" staleQuoteState).1.quote ≠ none ∧
    (setInputAmount "" staleQuoteState).1.outputAmount = "0.066700" ∧
    (setInputAmount "" staleQuoteState).2 = none := by
  refine ⟨by decide, by decide, by decide, by decide⟩

/-- Claim C4: for a text parsing to a positive `q` on a pair whose table rate
is `rate`, the completed recomputation stores a quote with
`outputAmount = q * rate` and
`minimumReceived = q * rate * (1 - slippage/100)`, sets the display string to
the six-decimal rendering of `q * rate`, turns the loading flag off and
leaves no error. -/
theorem claim_C4 (s : SwapState) (a : String) (q rate pi : ℚ) (t : ℕ)
    (hq : parseFloat a = JsNum.num q) (hpos : 0 < q)
    (hrate : MOCK_EXCHANGE_RATES (s.fromAsset.symbol ++ "-" ++ s.toAsset.symbol) = some rate) :
    (calculateQuoteSync a s.fromAsset s.toAsset s).2 = some ⟨a, s.fromAsset, s.toAsset⟩ ∧
    calculateQuoteResume ⟨a, s.fromAsset, s.toAsset⟩ pi t
        (calculateQuoteSync a s.fromAsset s.toAsset s).1 =
      { s with
        isQuoteLoading := false
        error := none
        quote := some { inputAmount := JsNum.num q,
                        outputAmount := JsNum.num (q * rate),
                        exchangeRate := rate, priceImpact := pi,
                        minimumReceived := JsNum.num (q * rate * (1 - s.slippageTolerance / 100)),
                        slippage := s.slippageTolerance, timestamp := t }
        outputAmount := toFixed6 (JsNum.num (q * rate)) } := by
  have hguard := quoteGuard_false_of_pos a q hq hpos
  have h1 := calculateQuoteSync_request a s.fromAsset s.toAsset s hguard
  refine ⟨by rw [h1], ?_⟩
  rw [h1, resume_rate_found a s.fromAsset s.toAsset pi t _ rate hrate, hq]
  rfl

/-- Witness for C4: input `"1"` on the default BTC→ETH pair with rate
`0.0667` and slippage tolerance `0.5`. -/
theorem claim_C4_witness :
    (parseFloat "1" = JsNum.num 1 ∧ (0 : ℚ) < 1 ∧
      MOCK_EXCHANGE_RATES (initialState.fromAsset.symbol ++ "-" ++
        initialState.toAsset.symbol) = some (mkRat 667 10000)) ∧
    ((calculateQuoteSync "1" initialState.fromAsset initialState.toAsset initialState).2 =
        some ⟨"1", initialState.fromAsset, initialState.toAsset⟩ ∧
      calculateQuoteResume ⟨"1", initialState.fromAsset, initialState.toAsset⟩ 0 0
          (calculateQuoteSync "1" initialState.fromAsset initialState.toAsset initialState).1 =
        { initialState with
          isQuoteLoading := false
          error := none
          quote := some { inputAmount := JsNum.num 1,
                          outputAmount := JsNum.num (1 * mkRat 667 10000),
                          exchangeRate := mkRat 667 10000, priceImpact := 0,
                          minimumReceived := JsNum.num
                            (1 * mkRat 667 10000 * (1 - initialState.slippageTolerance / 100)),
                          slippage := initialState.slippageTolerance, timestamp := 0 }
          outputAmount := toFixed6 (JsNum.num (1 * mkRat 667 10000)) }) :=
  ⟨⟨by decide, by norm_num, by decide⟩,
   claim_C4 initialState "1" 1 (mkRat 667 10000) 0 0 (by decide) (by norm_num) (by decide)⟩

/-- Claim C5: for a text parsing to a positive value on a pair with no table
entry, completion sets the non-empty error message
`'Exchange rate not available'`, clears `quote` and `outputAmount`, and turns
the loading flag off. -/
theorem claim_C5 (s : SwapState) (a : String) (q pi : ℚ) (t : ℕ)
    (hq : parseFloat a = JsNum.num q) (hpos : 0 < q)
    (hrate : MOCK_EXCHANGE_RATES (s.fromAsset.symbol ++ "-" ++ s.toAsset.symbol) = none) :
    (calculateQuoteSync a s.fromAsset s.toAsset s).2 = some ⟨a, s.fromAsset, s.toAsset⟩ ∧
    calculateQuoteResume ⟨a, s.fromAsset, s.toAsset⟩ pi t
        (calculateQuoteSync a s.fromAsset s.toAsset s).1 =
      { s with isQuoteLoading := false, error := some "Exchange rate not available",
               quote := none, outputAmount := "" } ∧
    "Exchange rate not available" ≠ "" := by
  have hguard := quoteGuard_false_of_pos a q hq hpos
  have h1 := calculateQuoteSync_request a s.fromAsset s.toAsset s hguard
  refine ⟨by rw [h1], ?_, by decide⟩
  rw [h1, resume_rate_missing a s.fromAsset s.toAsset pi t _ hrate]

/-- Witness for C5: input `"2"` with both assets set to ETH (key `ETH-ETH`
has no table entry). -/
theorem claim_C5_witness :
    (parseFloat "2" = JsNum.num 2 ∧ (0 : ℚ) < 2 ∧
      MOCK_EXCHANGE_RATES (assets_eth.symbol ++ "-" ++ assets_eth.symbol) = none) ∧
    ((calculateQuoteSync "2" assets_eth assets_eth
          { initialState with fromAsset := assets_eth }).2 =
        some ⟨"2", assets_eth, assets_eth⟩ ∧
      calculateQuoteResume ⟨"2", assets_eth, assets_eth⟩ 0 0
          (calculateQuoteSync "2" assets_eth assets_eth
            { initialState with fromAsset := assets_eth }).1 =
        { { initialState with fromAsset := assets_eth } with
            isQuoteLoading := false, error := some "Exchange rate not available",
            quote := none, outputAmount := "" } ∧
      "Exchange rate not available" ≠ "") :=
  ⟨⟨by decide, by norm_num, by decide⟩,
   claim_C5 { initialState with fromAsset := assets_eth } "2" 2 0 0
     (by decide) (by norm_num) (by decide)⟩

/-- Claim C9: non-empty text that parses to NaN (e.g. `"abc"`) passes the
guard (`NaN <= 0` is false), so on a supported pair the completed
recomputation stores a quote whose `inputAmount`, `outputAmount` and
`minimumReceived` are all NaN and sets the display string to `"NaN"`. -/
theorem claim_C9 (s : SwapState) (a : String) (rate pi : ℚ) (t : ℕ)
    (hne : a ≠ "") (hnan : parseFloat a = JsNum.nan)
    (hrate : MOCK_EXCHANGE_RATES (s.fromAsset.symbol ++ "-" ++ s.toAsset.symbol) = some rate) :
    (setInputAmount a s).2 = some ⟨a, s.fromAsset, s.toAsset⟩ ∧
    calculateQuoteResume ⟨a, s.fromAsset, s.toAsset⟩ pi t (setInputAmount a s).1 =
      { s with
        inputAmount := a
        isQuoteLoading := false
        error := none
        quote := some { inputAmount := JsNum.nan, outputAmount := JsNum.nan,
                        exchangeRate := rate, priceImpact := pi,
                        minimumReceived := JsNum.nan,
                        slippage := s.slippageTolerance, timestamp := t }
        outputAmount := "NaN" } := by
  have hguard := quoteGuard_false_of_nan a hne hnan
  have h1 : setInputAmount a s =
      ({ s with inputAmount := a, isQuoteLoading := true, error := none },
        some ⟨a, s.fromAsset, s.toAsset⟩) := by
    unfold setInputAmount
    rw [if_neg hne]
    exact calculateQuoteSync_request a _ _ _ hguard
  refine ⟨by rw [h1], ?_⟩
  rw [h1, resume_rate_found a s.fromAsset s.toAsset pi t _ rate hrate, hnan]
  rfl

/-- Witness for C9: the text `"abc"` on the default BTC→ETH pair. -/
theorem claim_C9_witness :
    ("abc" ≠ "" ∧ parseFloat "abc" = JsNum.nan ∧
      MOCK_EXCHANGE_RATES (initialState.fromAsset.symbol ++ "-" ++
        initialState.toAsset.symbol) = some (mkRat 667 10000)) ∧
    ((setInputAmount "abc" initialState).2 =
        some ⟨"abc", initialState.fromAsset, initialState.toAsset⟩ ∧
      calculateQuoteResume ⟨"abc", initialState.fromAsset, initialState.toAsset⟩ 0 0
          (setInputAmount "abc" initialState).1 =
        { initialState with
          inputAmount := "abc"
          isQuoteLoading := false
          error := none
          quote := some { inputAmount := JsNum.nan, outputAmount := JsNum.nan,
                          exchangeRate := mkRat 667 10000, priceImpact := 0,
                          minimumReceived := JsNum.nan,
                          slippage := initialState.slippageTolerance, timestamp := 0 }
          outputAmount := "NaN" }) :=
  ⟨⟨by decide, by decide, by decide⟩,
   claim_C9 initialState "abc" (mkRat 667 10000) 0 0 (by decide) (by decide) (by decide)⟩

/-- A string of the shape `sym ++ "-" ++ sym` never equals a seven-character
key whose three characters before the dash differ from the three after it. -/
theorem append_dash_self_ne (sym key : String) (x y z u v w : Char)
    (hkey : key.data = [x, y, z, '-', u, v, w])
    (hne : ¬(x = u ∧ y = v ∧ z = w)) :
    sym ++ "-" ++ sym ≠ key := by
  intro h
  have hd : sym.data ++ '-' :: sym.data = [x, y, z, '-', u, v, w] := by
    have h2 := congrArg String.data h
    rw [hkey] at h2
    simpa [String.data_append] using h2
  have hlen : sym.data.length = 3 := by
    have h3 := congrArg List.length hd
    simp only [List.length_append, List.length_cons, List.length_nil] at h3
    omega
  obtain ⟨a, b, c, habc⟩ := List.length_eq_three.mp hlen
  rw [habc] at hd
  simp only [List.cons_append, List.nil_append, List.cons.injEq, List.nil_eq] at hd
  obtain ⟨h1, h2, h3, _, h4, h5, h6, _⟩ := hd
  exact hne ⟨h1 ▸ h4, h2 ▸ h5, h3 ▸ h6⟩

/-- The rate table has no entry for any identical pair `X-X`. -/
theorem MOCK_EXCHANGE_RATES_selfPair (sym : String) :
    MOCK_EXCHANGE_RATES (sym ++ "-" ++ sym) = none := by
  unfold MOCK_EXCHANGE_RATES
  rw [if_neg (append_dash_self_ne sym "BTC-ETH" 'B' 'T' 'C' 'E' 'T' 'H' rfl (by decide)),
      if_neg (append_dash_self_ne sym "ETH-BTC" 'E' 'T' 'H' 'B' 'T' 'C' rfl (by decide))]

/-- Claim C10: selecting the asset already on the opposite side is accepted
unchanged — `setFromAsset` (resp. `setToAsset`) leaves `fromAsset = toAsset`
— and the recomputation it triggers for a non-empty, guard-passing amount
looks up the identical-pair key `X-X`, finds no rate, and completes with the
error `'Exchange rate not available'`, no quote and a cleared display. -/
theorem claim_C10 (s : SwapState) (a : Asset) (pi : ℚ) (t : ℕ)
    (hin : s.inputAmount ≠ "")
    (hle : jsLe (parseFloat s.inputAmount) (JsNum.num 0) = false) :
    (a = s.toAsset →
      (setFromAsset a s).1.fromAsset = (setFromAsset a s).1.toAsset ∧
      (setFromAsset a s).2 = some ⟨s.inputAmount, a, s.toAsset⟩ ∧
      calculateQuoteResume ⟨s.inputAmount, a, s.toAsset⟩ pi t (setFromAsset a s).1 =
        { s with fromAsset := a, isQuoteLoading := false,
                 error := some "Exchange rate not available",
                 quote := none, outputAmount := "" }) ∧
    (a = s.fromAsset →
      (setToAsset a s).1.fromAsset = (setToAsset a s).1.toAsset ∧
      (setToAsset a s).2 = some ⟨s.inputAmount, s.fromAsset, a⟩ ∧
      calculateQuoteResume ⟨s.inputAmount, s.fromAsset, a⟩ pi t (setToAsset a s).1 =
        { s with toAsset := a, isQuoteLoading := false,
                 error := some "Exchange rate not available",
                 quote := none, outputAmount := "" }) := by
  have hguard : ¬(s.inputAmount = "" ∨
      jsLe (parseFloat s.inputAmount) (JsNum.num 0) = true) := by
    rintro (h | h)
    · exact hin h
    · rw [hle] at h
      exact Bool.noConfusion h
  constructor
  · intro ha
    rw [ha]
    have h1 : setFromAsset s.toAsset s =
        ({ s with fromAsset := s.toAsset, isQuoteLoading := true, error := none },
          some ⟨s.inputAmount, s.toAsset, s.toAsset⟩) := by
      unfold setFromAsset
      rw [if_neg hin]
      exact calculateQuoteSync_request _ _ _ _ hguard
    refine ⟨by rw [h1], by rw [h1], ?_⟩
    rw [h1, resume_rate_missing s.inputAmount s.toAsset s.toAsset pi t _
      (MOCK_EXCHANGE_RATES_selfPair s.toAsset.symbol)]
  · intro ha
    rw [ha]
    have h1 : setToAsset s.fromAsset s =
        ({ s with toAsset := s.fromAsset, isQuoteLoading := true, error := none },
          some ⟨s.inputAmount, s.fromAsset, s.fromAsset⟩) := by
      unfold setToAsset
      rw [if_neg hin]
      exact calculateQuoteSync_request _ _ _ _ hguard
    refine ⟨by rw [h1], by rw [h1], ?_⟩
    rw [h1, resume_rate_missing s.inputAmount s.fromAsset s.fromAsset pi t _
      (MOCK_EXCHANGE_RATES_selfPair s.fromAsset.symbol)]

/-- Witness for C10: from the initial state with input `"1"`, select ETH
(the current `toAsset`) as `fromAsset` too; the ETH-ETH lookup fails. -/
theorem claim_C10_witness :
    (({ initialState with inputAmount := "1" } : SwapState).inputAmount ≠ "" ∧
      jsLe (parseFloat ({ initialState with inputAmount := "1" } : SwapState).inputAmount)
        (JsNum.num 0) = false ∧
      assets_eth = ({ initialState with inputAmount := "1" } : SwapState).toAsset) ∧
    ((setFromAsset assets_eth { initialState with inputAmount := "1" }).1.fromAsset =
        (setFromAsset assets_eth { initialState with inputAmount := "1" }).1.toAsset ∧
      (setFromAsset assets_eth { initialState with inputAmount := "1" }).2 =
        some ⟨({ initialState with inputAmount := "1" } : SwapState).inputAmount, assets_eth,
              ({ initialState with inputAmount := "1" } : SwapState).toAsset⟩ ∧
      calculateQuoteResume
          ⟨({ initialState with inputAmount := "1" } : SwapState).inputAmount, assets_eth,
            ({ initialState with inputAmount := "1" } : SwapState).toAsset⟩ 0 0
          (setFromAsset assets_eth { initialState with inputAmount := "1" }).1 =
        { { initialState with inputAmount := "1" } with
            fromAsset := assets_eth, isQuoteLoading := false,
            error := some "Exchange rate not available",
            quote := none, outputAmount := "" }) :=
  ⟨⟨by decide, by decide, by decide⟩,
   (claim_C10 { initialState with inputAmount := "1" } assets_eth 0 0
      (by decide) (by decide)).1 (by decide)⟩

/-- Claim C1 (amended): the store applies a completion unconditionally — there
is no generation check — so the final state reflects whichever completion is
applied last.  When the two completions arrive in issue order (which the
mock's fixed, equal 1000 ms delay produces), the last-applied completion is
the one for the newest input, and the final `quote`, `outputAmount` and
`error` correspond to it. -/
theorem claim_C1 (s0 : SwapState) (a1 a2 : String) (r1 r2 : PendingRequest)
    (pi1 pi2 rate : ℚ) (t1 t2 : ℕ)
    (_h1 : (setInputAmount a1 s0).2 = some r1)
    (h2 : (setInputAmount a2 (setInputAmount a1 s0).1).2 = some r2)
    (hrate : MOCK_EXCHANGE_RATES (r2.fromAsset.symbol ++ "-" ++ r2.toAsset.symbol) = some rate) :
    ((calculateQuoteResume r2 pi2 t2
        (calculateQuoteResume r1 pi1 t1
          (setInputAmount a2 (setInputAmount a1 s0).1).1)).quote.map Quote.inputAmount =
      some (parseFloat a2)) ∧
    (calculateQuoteResume r2 pi2 t2
        (calculateQuoteResume r1 pi1 t1
          (setInputAmount a2 (setInputAmount a1 s0).1).1)).error = none ∧
    (calculateQuoteResume r2 pi2 t2
        (calculateQuoteResume r1 pi1 t1
          (setInputAmount a2 (setInputAmount a1 s0).1).1)).outputAmount =
      toFixed6 (jsMul (parseFloat a2) (JsNum.num rate)) := by
  have hr2 := setInputAmount_request_amount a2 (setInputAmount a1 s0).1 r2 h2
  obtain ⟨am, fa, ta⟩ := r2
  have ham : am = a2 := congrArg PendingRequest.amount hr2
  rw [ham]
  rw [resume_rate_found a2 fa ta pi2 t2 _ rate hrate]
  exact ⟨rfl, rfl, rfl⟩

/-- Witness for C1: inputs `"1"` then `"2"` on the default pair, completions
applied in issue order. -/
theorem claim_C1_witness :
    ((setInputAmount "1" initialState).2 = some ⟨"1", assets_btc, assets_eth⟩ ∧
      (setInputAmount "2" (setInputAmount "1" initialState).1).2 =
        some ⟨"2", assets_btc, assets_eth⟩ ∧
      MOCK_EXCHANGE_RATES
          ((⟨"2", assets_btc, assets_eth⟩ : PendingRequest).fromAsset.symbol ++ "-" ++
            (⟨"2", assets_btc, assets_eth⟩ : PendingRequest).toAsset.symbol) =
        some (mkRat 667 10000)) ∧
    (((calculateQuoteResume ⟨"2", assets_btc, assets_eth⟩ 0 1
        (calculateQuoteResume ⟨"1", assets_btc, assets_eth⟩ 0 0
          (setInputAmount "2" (setInputAmount "1" initialState).1).1)).quote.map
        Quote.inputAmount = some (parseFloat "2")) ∧
      (calculateQuoteResume ⟨"2", assets_btc, assets_eth⟩ 0 1
        (calculateQuoteResume ⟨"1", assets_btc, assets_eth⟩ 0 0
          (setInputAmount "2" (setInputAmount "1" initialState).1).1)).error = none ∧
      (calculateQuoteResume ⟨"2", assets_btc, assets_eth⟩ 0 1
        (calculateQuoteResume ⟨"1", assets_btc, assets_eth⟩ 0 0
          (setInputAmount "2" (setInputAmount "1" initialState).1).1)).outputAmount =
        toFixed6 (jsMul (parseFloat "2") (JsNum.num (mkRat 667 10000)))) :=
  ⟨⟨by decide, by decide, by decide⟩,
   claim_C1 initialState "1" "2" ⟨"1", assets_btc, assets_eth⟩
     ⟨"2", assets_btc, assets_eth⟩ 0 0 (mkRat 667 10000) 0 1
     (by decide) (by decide) (by decide)⟩

/-- Counterexample to C1 as stated: with inputs `"1"` then `"2"` issued in
that order, applying the completion for the stale input `"1"` after the one
for `"2"` leaves a final quote for input `"1"` — the stale result overwrites
the newer one, because no generation check exists. -/
theorem claim_C1_counterexample :
    (setInputAmount "1" initialState).2 = some ⟨"1", assets_btc, assets_eth⟩ ∧
    (setInputAmount "2" (setInputAmount "1" initialState).1).2 =
      some ⟨"2", assets_btc, assets_eth⟩ ∧
    ((calculateQuoteResume ⟨"1", assets_btc, assets_eth⟩ 0 1
        (calculateQuoteResume ⟨"2", assets_btc, assets_eth⟩ 0 0
          (setInputAmount "2" (setInputAmount "1" initialState).1).1)).quote.map
        Quote.inputAmount = some (JsNum.num 1)) ∧
    parseFloat "2" = JsNum.num 2 ∧
    JsNum.num (1 : ℚ) ≠ JsNum.num 2 :=
  ⟨by decide, by decide, by decide, by decide, by decide⟩
